import Mathlib

/-!
Verification of the `hello_database` SQLite initializer
(`src/hello_database/init_db.py`).

The script is a linear, single-threaded setup tool.  We give a shallow
embedding of its observable state and behaviour:

* `DBState` models the SQLite database file: the three tables the script
  manages (each `Option _`, `none` meaning the table is absent), any
  pre-existing user tables the script never touches (`otherTables`),
  and the list of index names present.
* `create_schema` embeds `_create_schema`: three `CREATE TABLE IF NOT
  EXISTS`, two `CREATE INDEX IF NOT EXISTS`, four `INSERT OR REPLACE`
  upserts into `app_info`.
* `insertRequestLog` embeds the constraint behaviour of the
  `request_logs` table declared by the script (NOT NULL on `route` and
  `timestamp`, INTEGER PRIMARY KEY on `id`).
* `write_helper_files` and `main` embed the script entry point; the
  fallible interactions with the outside world (an existing possibly
  corrupted database file, filesystem write failures, the optional
  sqlite3 CLI probe) are supplied by an `Env` record, and every `print`
  of the script becomes a structured `OutLine` (with `render` giving the
  exact text printed).
-/

/-- A row of the `app_info` table:
`id INTEGER PRIMARY KEY AUTOINCREMENT, key TEXT UNIQUE NOT NULL,
value TEXT, created_at TIMESTAMP DEFAULT CURRENT_TIMESTAMP`. -/
structure AppInfoRow where
  id : Nat
  key : String
  value : Option String
  created_at : Nat
deriving Repr, DecidableEq

/-- The `app_info` table: its rows together with the next
AUTOINCREMENT id the engine would assign. -/
structure AppInfo where
  rows : List AppInfoRow
  nextId : Nat
deriving Repr, DecidableEq

/-- A row of the `users` table:
`id, username TEXT UNIQUE NOT NULL, email TEXT UNIQUE NOT NULL,
created_at TIMESTAMP DEFAULT CURRENT_TIMESTAMP`. -/
structure UserRow where
  id : Nat
  username : String
  email : String
  created_at : Nat
deriving Repr, DecidableEq

/-- A row of the `request_logs` table.  Columns without NOT NULL are
`Option`; `temperature REAL` is modelled with `Rat` (only storage
identity matters here, never float arithmetic). -/
structure RequestLogRow where
  id : Int
  route : Option String
  timestamp : Option Int
  ip : Option String
  user_agent : Option String
  location : Option String
  temperature : Option Rat
  units : Option String
deriving Repr, DecidableEq

/-- The database file state.  `none` means the table does not exist.
`otherTables` are names of pre-existing non-internal tables the script
never creates nor touches; `indexes` the index names present. -/
structure DBState where
  app_info : Option AppInfo
  users : Option (List UserRow)
  request_logs : Option (List RequestLogRow)
  otherTables : List String
  indexes : List String
deriving Repr, DecidableEq

/-- A database file that does not yet exist / was just created empty. -/
def emptyDB : DBState :=
  { app_info := none, users := none, request_logs := none,
    otherTables := [], indexes := [] }

/-- The fixed database file name (`DB_NAME = "myapp.db"`). -/
def DB_NAME : String := "myapp.db"

/-- `_container_db_path`: `Path(__file__).resolve().parent / DB_NAME`.
`scriptDir` is the resolved directory containing the script itself;
`cwd` is the working directory of the calling process, which the source
never consults (that is the point of resolving against `__file__`). -/
def container_db_path (scriptDir : String) (cwd : String) : String :=
  scriptDir ++ "/" ++ DB_NAME

/-- A fresh `app_info` table as `CREATE TABLE` leaves it. -/
def emptyAppInfo : AppInfo := { rows := [], nextId := 1 }

/-- `CREATE TABLE IF NOT EXISTS app_info (...)`. -/
def createAppInfoIfAbsent (db : DBState) : DBState :=
  match db.app_info with
  | some _ => db
  | none => { db with app_info := some emptyAppInfo }

/-- `CREATE TABLE IF NOT EXISTS users (...)`. -/
def createUsersIfAbsent (db : DBState) : DBState :=
  match db.users with
  | some _ => db
  | none => { db with users := some [] }

/-- `CREATE TABLE IF NOT EXISTS request_logs (...)`. -/
def createRequestLogsIfAbsent (db : DBState) : DBState :=
  match db.request_logs with
  | some _ => db
  | none => { db with request_logs := some [] }

/-- Add an index name to the list unless already present. -/
def addIndexName (l : List String) (n : String) : List String :=
  if n ∈ l then l else l ++ [n]

/-- `CREATE INDEX IF NOT EXISTS n ON request_logs(...)`. -/
def createIndexIfAbsent (db : DBState) (n : String) : DBState :=
  { db with indexes := addIndexName db.indexes n }

/-- The row a seed upsert inserts: fresh id, the key/value pair, and
`created_at` defaulted to the current timestamp. -/
def seedRow (i : Nat) (k v : String) (now : Nat) : AppInfoRow :=
  { id := i, key := k, value := some v, created_at := now }

/-- `INSERT OR REPLACE INTO app_info (key, value) VALUES (?, ?)`:
any row conflicting on the UNIQUE `key` column is deleted, and a brand
new row is inserted with a fresh AUTOINCREMENT id and
`created_at = CURRENT_TIMESTAMP` (the time `now` of this run). -/
def upsertAppInfo (t : AppInfo) (now : Nat) (k v : String) : AppInfo :=
  { rows := t.rows.filter (fun r => r.key ≠ k) ++ [seedRow t.nextId k v now],
    nextId := t.nextId + 1 }

/-- The hardcoded description value seeded into `app_info`. -/
def descriptionValue : String :=
  "SQLite DB backing the Hello+Location+Temperature app with request logging."

/-- The four seed upserts of `_create_schema`, in source order. -/
def seedAppInfo (now : Nat) (t : AppInfo) : AppInfo :=
  upsertAppInfo
    (upsertAppInfo
      (upsertAppInfo
        (upsertAppInfo t now "project_name" "hello_database")
        now "version" "0.1.0")
      now "author" "John Doe")
    now "description" descriptionValue

/-- `_create_schema`: create the three tables if absent, create the two
indexes if absent, then run the four seed upserts, in source order.
`now` is the commit-time value of CURRENT_TIMESTAMP. -/
def create_schema (now : Nat) (db : DBState) : DBState :=
  let db1 := createAppInfoIfAbsent db
  let db2 := createUsersIfAbsent db1
  let db3 := createRequestLogsIfAbsent db2
  let db4 := createIndexIfAbsent db3 "idx_request_logs_timestamp"
  let db5 := createIndexIfAbsent db4 "idx_request_logs_route"
  { db5 with app_info := db5.app_info.map (seedAppInfo now) }

/-- The non-internal table names present, as counted by
`SELECT COUNT(*) FROM sqlite_master WHERE type='table' AND name NOT
LIKE 'sqlite_%'` (internal tables such as the AUTOINCREMENT bookkeeping
table are excluded by that query and hence not modelled). -/
def tableNames (db : DBState) : List String :=
  (if db.app_info.isSome then ["app_info"] else []) ++
  (if db.users.isSome then ["users"] else []) ++
  (if db.request_logs.isSome then ["request_logs"] else []) ++
  db.otherTables

/-- The index names present. -/
def indexNames (db : DBState) : List String := db.indexes

/-- The rows of `app_info` (empty when the table is absent). -/
def appInfoRows (db : DBState) : List AppInfoRow :=
  (db.app_info.getD emptyAppInfo).rows

/-- The rows of `request_logs` (empty when the table is absent). -/
def requestLogRows (db : DBState) : List RequestLogRow :=
  db.request_logs.getD []

theorem create_schema_eq (now : Nat) (db : DBState) :
    create_schema now db =
      { app_info := some (seedAppInfo now (db.app_info.getD emptyAppInfo)),
        users := some (db.users.getD []),
        request_logs := some (db.request_logs.getD []),
        otherTables := db.otherTables,
        indexes := addIndexName (addIndexName db.indexes
          "idx_request_logs_timestamp") "idx_request_logs_route" } := by
  obtain ⟨a, u, rl, ot, ix⟩ := db
  unfold create_schema createAppInfoIfAbsent createUsersIfAbsent
    createRequestLogsIfAbsent createIndexIfAbsent
  cases a <;> cases u <;> cases rl <;> rfl

theorem mem_addIndexName_self (l : List String) (n : String) :
    n ∈ addIndexName l n := by
  unfold addIndexName
  split
  · assumption
  · simp

theorem mem_addIndexName_of_mem (l : List String) (n m : String) (h : m ∈ l) :
    m ∈ addIndexName l n := by
  unfold addIndexName
  split
  · exact h
  · simp [h]

theorem addIndexName_of_mem (l : List String) (n : String) (h : n ∈ l) :
    addIndexName l n = l := by
  unfold addIndexName
  simp [h]

theorem filter_and_ne_key (rows : List AppInfoRow) (k : String)
    (q : AppInfoRow → Bool) (h : ∀ r, q r = true → r.key ≠ k) :
    rows.filter (fun a => q a && decide (a.key ≠ k)) = rows.filter q := by
  induction rows with
  | nil => rfl
  | cons a l ih =>
    cases hq : q a with
    | false =>
      rw [List.filter_cons, List.filter_cons,
        if_neg (by simp [hq]), if_neg (by simp [hq]), ih]
    | true =>
      rw [List.filter_cons, List.filter_cons,
        if_pos (by simp [hq, h a hq]), if_pos hq, ih]

theorem filter_ne_key_filter (rows : List AppInfoRow) (k : String)
    (q : AppInfoRow → Bool) (h : ∀ r, q r = true → r.key ≠ k) :
    (rows.filter (fun r => r.key ≠ k)).filter q = rows.filter q := by
  rw [List.filter_filter]
  exact filter_and_ne_key rows k q h

theorem filter_key_filter_ne_self (rows : List AppInfoRow) (k : String) :
    (rows.filter (fun r => r.key ≠ k)).filter (fun r => r.key = k) = [] := by
  rw [List.filter_filter]
  rw [List.filter_eq_nil_iff]
  intro a _
  simp

theorem upsert_filter_same (t : AppInfo) (now : Nat) (k v : String) :
    (upsertAppInfo t now k v).rows.filter (fun r => r.key = k) =
      [seedRow t.nextId k v now] := by
  unfold upsertAppInfo
  rw [List.filter_append, filter_key_filter_ne_self]
  simp [seedRow]

theorem upsert_filter_other (t : AppInfo) (now : Nat) (k v k' : String)
    (h : k' ≠ k) :
    (upsertAppInfo t now k v).rows.filter (fun r => r.key = k') =
      t.rows.filter (fun r => r.key = k') := by
  unfold upsertAppInfo
  rw [List.filter_append]
  have h2 : ([seedRow t.nextId k v now] : List AppInfoRow).filter
      (fun r => r.key = k') = [] := by
    simp [seedRow, Ne.symm h]
  rw [h2, List.append_nil]
  refine filter_ne_key_filter _ _ _ (fun r hr => ?_)
  have : r.key = k' := of_decide_eq_true hr
  rw [this]
  exact h

/-- The four keys seeded by `_create_schema`. -/
def seedKeys : List String :=
  ["project_name", "version", "author", "description"]

theorem upsert_filter_nonseed (t : AppInfo) (now : Nat) (k v : String)
    (hk : k ∈ seedKeys) :
    (upsertAppInfo t now k v).rows.filter (fun r => r.key ∉ seedKeys) =
      t.rows.filter (fun r => r.key ∉ seedKeys) := by
  unfold upsertAppInfo
  rw [List.filter_append]
  have h2 : ([seedRow t.nextId k v now] : List AppInfoRow).filter
      (fun r => r.key ∉ seedKeys) = [] := by
    simp [seedRow, hk]
  rw [h2, List.append_nil]
  refine filter_ne_key_filter _ _ _ (fun r hr => ?_)
  have hns : r.key ∉ seedKeys := of_decide_eq_true hr
  exact fun he => hns (he ▸ hk)

theorem appInfoRows_create_schema (now : Nat) (db : DBState) :
    appInfoRows (create_schema now db) =
      (seedAppInfo now (db.app_info.getD emptyAppInfo)).rows := by
  rw [create_schema_eq]
  rfl

/-- C3: After any run, regardless of the prior contents of the database,
`app_info` contains exactly one row for each of the keys `project_name`,
`version`, `author`, `description`, and their values are the hardcoded
current values of the script. -/
theorem app_info_seeded (now : Nat) (db : DBState) :
    ((appInfoRows (create_schema now db)).filter
        (fun r => r.key = "project_name")).map (fun r => r.value) =
      [some "hello_database"] ∧
    ((appInfoRows (create_schema now db)).filter
        (fun r => r.key = "version")).map (fun r => r.value) =
      [some "0.1.0"] ∧
    ((appInfoRows (create_schema now db)).filter
        (fun r => r.key = "author")).map (fun r => r.value) =
      [some "John Doe"] ∧
    ((appInfoRows (create_schema now db)).filter
        (fun r => r.key = "description")).map (fun r => r.value) =
      [some descriptionValue] := by
  rw [appInfoRows_create_schema]
  unfold seedAppInfo
  refine ⟨?_, ?_, ?_, ?_⟩
  · rw [upsert_filter_other _ _ _ _ _ (by decide),
        upsert_filter_other _ _ _ _ _ (by decide),
        upsert_filter_other _ _ _ _ _ (by decide),
        upsert_filter_same]
    rfl
  · rw [upsert_filter_other _ _ _ _ _ (by decide),
        upsert_filter_other _ _ _ _ _ (by decide),
        upsert_filter_same]
    rfl
  · rw [upsert_filter_other _ _ _ _ _ (by decide),
        upsert_filter_same]
    rfl
  · rw [upsert_filter_same]
    rfl

/-- C5: The resolved database path is the script directory joined with
`myapp.db`; it is the same for every caller working directory, so
repeated invocations from any directory target the same file. -/
theorem db_path_stable (scriptDir cwd₁ cwd₂ : String) :
    container_db_path scriptDir cwd₁ = container_db_path scriptDir cwd₂ ∧
    container_db_path scriptDir cwd₁ = scriptDir ++ "/" ++ "myapp.db" :=
  ⟨rfl, rfl⟩

/-- C6: A run deletes and updates nothing except the `app_info` rows
touched by the four upserts: all pre-existing `users` rows,
`request_logs` rows, foreign tables, and `app_info` rows whose key is
not one of the four seed keys are unchanged. -/
theorem run_frame (now : Nat) (db : DBState) :
    (create_schema now db).users = some (db.users.getD []) ∧
    (create_schema now db).request_logs = some (db.request_logs.getD []) ∧
    (create_schema now db).otherTables = db.otherTables ∧
    (appInfoRows (create_schema now db)).filter
        (fun r => r.key ∉ seedKeys) =
      (appInfoRows db).filter (fun r => r.key ∉ seedKeys) := by
  refine ⟨?_, ?_, ?_, ?_⟩
  · rw [create_schema_eq]
  · rw [create_schema_eq]
  · rw [create_schema_eq]
  · rw [appInfoRows_create_schema]
    unfold seedAppInfo
    rw [upsert_filter_nonseed _ _ _ _ (by decide),
        upsert_filter_nonseed _ _ _ _ (by decide),
        upsert_filter_nonseed _ _ _ _ (by decide),
        upsert_filter_nonseed _ _ _ _ (by decide)]
    rfl

/-- C10: The `INSERT OR REPLACE` upsert replaces the whole conflicting
row: after the upsert the single row for the key is a brand new row with
a fresh id and this run's `created_at`; any pre-existing row for that
key (having an older id) is gone; and the `created_at` of a seed row
always equals the time of the latest run, so it is not stable across
repeated runs made at different times. -/
theorem upsert_replaces_row (t : AppInfo) (now : Nat) (k v : String) :
    ((upsertAppInfo t now k v).rows.filter (fun r => r.key = k)) =
      [seedRow t.nextId k v now] ∧
    (∀ r0 ∈ t.rows, r0.key = k → r0.id ≠ t.nextId →
      r0 ∉ (upsertAppInfo t now k v).rows) ∧
    (∀ db : DBState, ((appInfoRows (create_schema now db)).filter
        (fun r => r.key = "project_name")).map (fun r => r.created_at) =
      [now]) := by
  refine ⟨upsert_filter_same t now k v, ?_, ?_⟩
  · intro r0 _ hk hid hmem
    unfold upsertAppInfo at hmem
    rcases List.mem_append.mp hmem with h | h
    · exact (of_decide_eq_true (List.mem_filter.mp h).2) hk
    · have he : r0 = seedRow t.nextId k v now := by simpa using h
      exact hid (by rw [he]; rfl)
  · intro db
    rw [appInfoRows_create_schema]
    unfold seedAppInfo
    rw [upsert_filter_other _ _ _ _ _ (by decide),
        upsert_filter_other _ _ _ _ _ (by decide),
        upsert_filter_other _ _ _ _ _ (by decide),
        upsert_filter_same]
    rfl

/-- Insertion into the `request_logs` table created by the script
(`CREATE TABLE IF NOT EXISTS request_logs (id INTEGER PRIMARY KEY,
route TEXT NOT NULL, timestamp INTEGER NOT NULL, ip TEXT, user_agent
TEXT, location TEXT, temperature REAL, units TEXT)`): a null `route` or
null `timestamp` violates NOT NULL, a duplicate `id` violates the
primary key, otherwise the row is stored as given. -/
def insertRequestLog (t : List RequestLogRow) (r : RequestLogRow) :
    Except String (List RequestLogRow) :=
  if r.route.isNone then
    Except.error "NOT NULL constraint failed: request_logs.route"
  else if r.timestamp.isNone then
    Except.error "NOT NULL constraint failed: request_logs.timestamp"
  else if t.any (fun x => x.id == r.id) then
    Except.error "UNIQUE constraint failed: request_logs.id"
  else
    Except.ok (t ++ [r])

/-- `SELECT * FROM request_logs WHERE id = i` (at most one row, `id`
being the primary key). -/
def selectLogById (t : List RequestLogRow) (i : Int) : Option RequestLogRow :=
  t.find? (fun x => x.id == i)

theorem find_id_append_fresh (t : List RequestLogRow) (r : RequestLogRow)
    (h : ∀ x ∈ t, x.id ≠ r.id) :
    selectLogById (t ++ [r]) r.id = some r := by
  unfold selectLogById
  induction t with
  | nil => simp
  | cons a l ih =>
    have ha : a.id ≠ r.id := h a (List.mem_cons_self a l)
    simp only [List.cons_append, List.find?_cons]
    have hb : (a.id == r.id) = false := by simp [ha]
    rw [hb]
    exact ih (fun x hx => h x (List.mem_cons_of_mem a hx))

/-- C7: the `request_logs` table rejects insertion of any row whose
`route` is null or whose `timestamp` is null, and accepts a
fully-populated row, every field of which is stored and read back
exactly as inserted. -/
theorem request_logs_constraints :
    (∀ t r, r.route = none → ∃ e, insertRequestLog t r = Except.error e) ∧
    (∀ t r, r.timestamp = none → ∃ e, insertRequestLog t r = Except.error e) ∧
    (∀ t r, r.route.isSome → r.timestamp.isSome → r.ip.isSome →
      r.user_agent.isSome → r.location.isSome → r.temperature.isSome →
      r.units.isSome → (∀ x ∈ t, x.id ≠ r.id) →
      insertRequestLog t r = Except.ok (t ++ [r]) ∧
      selectLogById (t ++ [r]) r.id = some r) := by
  refine ⟨?_, ?_, ?_⟩
  · intro t r h
    exact ⟨"NOT NULL constraint failed: request_logs.route",
      by simp [insertRequestLog, h]⟩
  · intro t r h
    unfold insertRequestLog
    cases hr : r.route.isNone with
    | true =>
      exact ⟨"NOT NULL constraint failed: request_logs.route", by simp⟩
    | false =>
      exact ⟨"NOT NULL constraint failed: request_logs.timestamp",
        by simp [h]⟩
  · intro t r h1 h2 _ _ _ _ _ hid
    have hr : r.route.isNone = false := by
      cases hx : r.route
      · rw [hx] at h1; simp at h1
      · simp [hx]
    have ht : r.timestamp.isNone = false := by
      cases hx : r.timestamp
      · rw [hx] at h2; simp at h2
      · simp [hx]
    have hany : t.any (fun x => x.id == r.id) = false := by
      rw [List.any_eq_false]
      intro x hx
      simp [hid x hx]
    refine ⟨by simp [insertRequestLog, hr, ht, hany], ?_⟩
    exact find_id_append_fresh t r hid

/-- A fully-populated `request_logs` row used as concrete input. -/
def fullLogRow : RequestLogRow :=
  { id := 7, route := some "/api/hello", timestamp := some 1700000000000,
    ip := some "127.0.0.1", user_agent := some "curl/8.4.0",
    location := some "Austin, TX", temperature := some (43 / 2 : Rat),
    units := some "metric" }

/-- A row violating NOT NULL on `route`. -/
def nullRouteRow : RequestLogRow :=
  { id := 8, route := none, timestamp := some 1700000000000, ip := none,
    user_agent := none, location := none, temperature := none,
    units := none }

/-- Witness for C7: the NOT NULL rejection and the full round-trip at
concrete rows. -/
theorem request_logs_constraints_witness :
    (∃ e, insertRequestLog [] nullRouteRow = Except.error e) ∧
    insertRequestLog [] fullLogRow = Except.ok [fullLogRow] ∧
    selectLogById [fullLogRow] (7 : Int) = some fullLogRow := by
  refine ⟨request_logs_constraints.1 [] nullRouteRow rfl, ?_, ?_⟩
  · exact (request_logs_constraints.2.2 [] fullLogRow rfl rfl rfl rfl rfl rfl
      rfl (by intro x hx; simp at hx)).1
  · have h := (request_logs_constraints.2.2 [] fullLogRow rfl rfl rfl rfl rfl
      rfl rfl (by intro x hx; simp at hx)).2
    simpa using h

/-- One printed line of the script.  Each constructor corresponds to one
`print(...)` in the source; `render` gives the exact text printed. -/
inductive OutLine where
  | startingSetup
  | alreadyExists (path : String)
  | accessible
  | corruptionWarning (e : String)
  | creatingNew (path : String)
  | connInfoWarning (e : String)
  | envVarsWarning (e : String)
  | setupComplete
  | databaseLine (name : String)
  | locationLine (path : String)
  | blank
  | viewerHint
  | connectMethodsHeader
  | pythonHint (path : String)
  | connStringHint (path : String)
  | directFileHint (path : String)
  | statsHeader
  | tablesLine (n : Nat)
  | logsLine (n : Nat)
  | cliHeader
  | cliHint (path : String)
  | completedSuccessfully
deriving Repr, DecidableEq

/-- The exact text of each printed line (kept for fidelity with the
source; claim proofs use the structured `OutLine` values). -/
def render : OutLine → String
  | OutLine.startingSetup => "Starting SQLite setup..."
  | OutLine.alreadyExists p => "SQLite database already exists at " ++ p
  | OutLine.accessible => "Database is accessible and working."
  | OutLine.corruptionWarning e =>
      "Warning: Database exists but may be corrupted: " ++ e
  | OutLine.creatingNew p =>
      "Creating new SQLite database at " ++ p ++ "..."
  | OutLine.connInfoWarning e =>
      "Warning: Could not save connection info: " ++ e
  | OutLine.envVarsWarning e =>
      "Warning: Could not save environment variables: " ++ e
  | OutLine.setupComplete => "\nSQLite setup complete!"
  | OutLine.databaseLine n => "Database: " ++ n
  | OutLine.locationLine p => "Location: " ++ p
  | OutLine.blank => ""
  | OutLine.viewerHint =>
      "To use with Node.js viewer, run: source db_visualizer/sqlite.env"
  | OutLine.connectMethodsHeader =>
      "\nTo connect to the database, use one of the following methods:"
  | OutLine.pythonHint p => "1. Python: sqlite3.connect(\x27" ++ p ++ "\x27)"
  | OutLine.connStringHint p => "2. Connection string: sqlite:///" ++ p
  | OutLine.directFileHint p => "3. Direct file access: " ++ p
  | OutLine.statsHeader => "Database statistics:"
  | OutLine.tablesLine n => "  Tables: " ++ toString n
  | OutLine.logsLine n => "  Request logs records: " ++ toString n
  | OutLine.cliHeader => "SQLite CLI is available. You can also use:"
  | OutLine.cliHint p => "  sqlite3 " ++ p
  | OutLine.completedSuccessfully => "\nScript completed successfully."

/-- Filesystem behaviour for the helper-file step of one run: each field
is `some msg` when the corresponding OS call raises with message `msg`,
`none` when it succeeds. -/
structure FSEnv where
  connTxtError : Option String
  visualizerMkdirError : Option String
  envFileError : Option String
deriving Repr, DecidableEq

/-- A file written by the script: path and full content. -/
structure WrittenFile where
  path : String
  content : String
deriving Repr, DecidableEq

/-- Content of `db_connection.txt`. -/
def connTxtContent (db_path : String) : String :=
  "# SQLite connection methods:\n" ++
  "# Python: sqlite3.connect(\x27" ++ db_path ++ "\x27)\n" ++
  "# Connection string: sqlite:///" ++ db_path ++ "\n" ++
  "# File path: " ++ db_path ++ "\n"

/-- Content of `db_visualizer/sqlite.env`. -/
def envFileContent (db_path : String) : String :=
  "export SQLITE_DB=\x22" ++ db_path ++ "\x22\n"

/-- `_write_helper_files`: try to write `db_connection.txt` (an OS error
is caught and becomes a warning); run `mkdir(parents=True,
exist_ok=True)` for `db_visualizer` (an OS error here is NOT inside any
try block in the source, so it propagates); then try to write
`db_visualizer/sqlite.env` (an OS error is caught and becomes a
warning).  Returns the warnings printed and the files written. -/
def write_helper_files (fs : FSEnv) (container_dir : String)
    (db_path : String) : Except String (List OutLine × List WrittenFile) :=
  let step1 : List OutLine × List WrittenFile :=
    match fs.connTxtError with
    | some e => ([OutLine.connInfoWarning e], [])
    | none =>
        ([], [{ path := container_dir ++ "/db_connection.txt",
                content := connTxtContent db_path }])
  match fs.visualizerMkdirError with
  | some e => Except.error e
  | none =>
    match fs.envFileError with
    | some e => Except.ok (step1.1 ++ [OutLine.envVarsWarning e], step1.2)
    | none =>
        Except.ok (step1.1,
          step1.2 ++ [{ path := container_dir ++ "/db_visualizer/sqlite.env",
                        content := envFileContent db_path }])

/-- The outside world for one run of `main`: script location, caller
working directory, whether the database file already exists and what it
contains, whether the pre-check `SELECT 1` raises, whether
`_create_schema` raises, the CURRENT_TIMESTAMP of the run, filesystem
behaviour for the helper files, and the sqlite3 CLI probe outcome. -/
structure Env where
  scriptDir : String
  cwd : String
  dbExists : Bool
  precheckError : Option String
  initDb : DBState
  schemaError : Option String
  now : Nat
  fs : FSEnv
  cliAvailable : Bool
  cliDetectError : Option String
deriving Repr, DecidableEq

/-- The observable result of a successful run: everything printed, the
final database state, the two reported statistics, and the files
written. -/
structure MainResult where
  output : List OutLine
  finalDb : DBState
  tableCount : Nat
  logsCount : Nat
  files : List WrittenFile
deriving Repr, DecidableEq

/-- Output of `main` up to and including the existence/pre-check block. -/
def preOutput (env : Env) (db_path : String) : List OutLine :=
  [OutLine.startingSetup] ++
  (if env.dbExists then
    [OutLine.alreadyExists db_path] ++
    (match env.precheckError with
     | none => [OutLine.accessible]
     | some e => [OutLine.corruptionWarning e])
  else
    [OutLine.creatingNew db_path])

/-- The fixed report block printed after the statistics are gathered. -/
def reportLines (db_path : String) (table_count logs_count : Nat) :
    List OutLine :=
  [OutLine.setupComplete, OutLine.databaseLine DB_NAME,
   OutLine.locationLine db_path, OutLine.blank, OutLine.viewerHint,
   OutLine.connectMethodsHeader, OutLine.pythonHint db_path,
   OutLine.connStringHint db_path, OutLine.directFileHint db_path,
   OutLine.blank, OutLine.statsHeader, OutLine.tablesLine table_count,
   OutLine.logsLine logs_count]

/-- The optional sqlite3 CLI hint block: an error during detection is
swallowed and prints nothing; otherwise the hint block is printed
exactly when the CLI was found. -/
def cliLines (env : Env) (db_path : String) : List OutLine :=
  match env.cliDetectError with
  | some _ => []
  | none =>
    if env.cliAvailable then
      [OutLine.blank, OutLine.cliHeader, OutLine.cliHint db_path]
    else []

/-- The `main` entry point of the script: resolve the path, print the
existence/pre-check block, apply the schema (an error there propagates
uncaught), gather statistics, write the helper files (a mkdir error
there propagates uncaught), print the report and the optional CLI hint,
and finish.  (Named `main_run` because `main` is reserved.) -/
def main_run (env : Env) : Except String MainResult :=
  let db_path := container_db_path env.scriptDir env.cwd
  let pre := preOutput env db_path
  match env.schemaError with
  | some e => Except.error e
  | none =>
    let db0 := if env.dbExists then env.initDb else emptyDB
    let db1 := create_schema env.now db0
    let table_count := (tableNames db1).length
    let logs_count := (requestLogRows db1).length
    match write_helper_files env.fs env.scriptDir db_path with
    | Except.error e => Except.error e
    | Except.ok (warns, files) =>
      Except.ok
        { output := pre ++ warns ++
            reportLines db_path table_count logs_count ++
            cliLines env db_path ++ [OutLine.completedSuccessfully],
          finalDb := db1, tableCount := table_count,
          logsCount := logs_count, files := files }

/-- The database state a clean run leaves behind. -/
def finalDbOf (env : Env) : DBState :=
  create_schema env.now (if env.dbExists then env.initDb else emptyDB)

/-- The warnings `_write_helper_files` prints when its mkdir succeeds. -/
def helperWarns (fs : FSEnv) : List OutLine :=
  (match fs.connTxtError with
   | some e => [OutLine.connInfoWarning e]
   | none => []) ++
  (match fs.envFileError with
   | some e => [OutLine.envVarsWarning e]
   | none => [])

/-- The files `_write_helper_files` writes when its mkdir succeeds. -/
def helperFiles (fs : FSEnv) (container_dir db_path : String) :
    List WrittenFile :=
  (match fs.connTxtError with
   | some _ => []
   | none => [{ path := container_dir ++ "/db_connection.txt",
                content := connTxtContent db_path }]) ++
  (match fs.envFileError with
   | some _ => []
   | none => [{ path := container_dir ++ "/db_visualizer/sqlite.env",
                content := envFileContent db_path }])

/-- The result record of a clean run. -/
def mainResultOf (env : Env) : MainResult :=
  { output := preOutput env (container_db_path env.scriptDir env.cwd) ++
      helperWarns env.fs ++
      reportLines (container_db_path env.scriptDir env.cwd)
        (tableNames (finalDbOf env)).length
        (requestLogRows (finalDbOf env)).length ++
      cliLines env (container_db_path env.scriptDir env.cwd) ++
      [OutLine.completedSuccessfully],
    finalDb := finalDbOf env,
    tableCount := (tableNames (finalDbOf env)).length,
    logsCount := (requestLogRows (finalDbOf env)).length,
    files := helperFiles env.fs env.scriptDir
      (container_db_path env.scriptDir env.cwd) }

theorem write_helper_files_ok (fs : FSEnv) (cd p : String)
    (h : fs.visualizerMkdirError = none) :
    write_helper_files fs cd p =
      Except.ok (helperWarns fs, helperFiles fs cd p) := by
  unfold write_helper_files helperWarns helperFiles
  cases hc : fs.connTxtError <;> cases he : fs.envFileError <;>
    simp [h, hc, he]

theorem main_run_ok (env : Env) (h1 : env.schemaError = none)
    (h2 : env.fs.visualizerMkdirError = none) :
    main_run env = Except.ok (mainResultOf env) := by
  unfold main_run mainResultOf finalDbOf
  rw [h1]
  simp only [write_helper_files_ok env.fs env.scriptDir
    (container_db_path env.scriptDir env.cwd) h2]

theorem main_run_schema_error (env : Env) (e : String)
    (h : env.schemaError = some e) : main_run env = Except.error e := by
  unfold main_run
  rw [h]

theorem main_run_mkdir_error (env : Env) (e : String)
    (h1 : env.schemaError = none) (h2 : env.fs.visualizerMkdirError = some e) :
    main_run env = Except.error e := by
  unfold main_run write_helper_files
  rw [h1, h2]

theorem tableNames_create_schema (now : Nat) (db : DBState) :
    tableNames (create_schema now db) =
      ["app_info", "users", "request_logs"] ++ db.otherTables := by
  rw [create_schema_eq]
  rfl

theorem otherTables_create_schema (now : Nat) (db : DBState) :
    (create_schema now db).otherTables = db.otherTables := by
  rw [create_schema_eq]

theorem indexes_create_schema (now : Nat) (db : DBState) :
    (create_schema now db).indexes =
      addIndexName (addIndexName db.indexes "idx_request_logs_timestamp")
        "idx_request_logs_route" := by
  rw [create_schema_eq]

theorem addIndexName_pair_idem (l : List String) (a b : String) :
    addIndexName (addIndexName (addIndexName (addIndexName l a) b) a) b =
      addIndexName (addIndexName l a) b := by
  have ha : a ∈ addIndexName (addIndexName l a) b :=
    mem_addIndexName_of_mem _ b a (mem_addIndexName_self l a)
  rw [addIndexName_of_mem _ a ha,
    addIndexName_of_mem _ b (mem_addIndexName_self _ b)]

/-- The environment of an immediately following second run: the database
file now exists with the contents the first run left behind, and the
pre-check succeeds. -/
def rerun (env : Env) (r : MainResult) : Env :=
  { env with dbExists := true, initDb := r.finalDb, precheckError := none }

/-- C1: running the initializer twice in succession produces no errors,
and the set of tables and the set of indexes after the second run equal
those after the first run. -/
theorem schema_idempotent (env : Env) (h1 : env.schemaError = none)
    (h2 : env.fs.visualizerMkdirError = none) :
    ∃ r1, main_run env = Except.ok r1 ∧
      ∃ r2, main_run (rerun env r1) = Except.ok r2 ∧
        tableNames r2.finalDb = tableNames r1.finalDb ∧
        indexNames r2.finalDb = indexNames r1.finalDb := by
  refine ⟨mainResultOf env, main_run_ok env h1 h2,
    mainResultOf (rerun env (mainResultOf env)), main_run_ok _ h1 h2, ?_, ?_⟩
  · show tableNames (create_schema env.now (finalDbOf env)) =
      tableNames (finalDbOf env)
    unfold finalDbOf
    rw [tableNames_create_schema, tableNames_create_schema,
      otherTables_create_schema]
  · show indexNames (create_schema env.now (finalDbOf env)) =
      indexNames (finalDbOf env)
    unfold indexNames finalDbOf
    rw [indexes_create_schema, indexes_create_schema]
    exact addIndexName_pair_idem _ _ _

/-- A benign concrete environment: fresh database, no failures. -/
def benignEnv : Env :=
  { scriptDir := "/opt/kavia/hello_database", cwd := "/home/kavia",
    dbExists := false, precheckError := none, initDb := emptyDB,
    schemaError := none, now := 1760227200,
    fs := { connTxtError := none, visualizerMkdirError := none,
            envFileError := none },
    cliAvailable := true, cliDetectError := none }

/-- Witness for C1 at the benign environment. -/
theorem schema_idempotent_witness :
    ∃ r1, main_run benignEnv = Except.ok r1 ∧
      ∃ r2, main_run (rerun benignEnv r1) = Except.ok r2 ∧
        tableNames r2.finalDb = tableNames r1.finalDb ∧
        indexNames r2.finalDb = indexNames r1.finalDb :=
  schema_idempotent benignEnv rfl rfl

/-- The script directory is read-only for helper-file writes and the
`db_visualizer` subdirectory does not exist yet (so its mkdir raises),
while the database file itself exists and is writable (the schema
applies cleanly). -/
def readOnlyDirEnv : Env :=
  { scriptDir := "/opt/kavia/hello_database", cwd := "/home/kavia",
    dbExists := true, precheckError := none, initDb := emptyDB,
    schemaError := none, now := 1760227200,
    fs := { connTxtError := some "Permission denied",
            visualizerMkdirError := some "Permission denied",
            envFileError := some "Permission denied" },
    cliAvailable := false, cliDetectError := none }

/-- C2 counterexample: in the read-only-directory scenario with the
`db_visualizer` subdirectory absent, the run does not complete
successfully and prints no warning path: the mkdir error, raised outside
every try block, aborts the run. -/
theorem helper_readonly_counterexample :
    main_run readOnlyDirEnv = Except.error "Permission denied" :=
  main_run_mkdir_error readOnlyDirEnv "Permission denied" rfl rfl

/-- C2 (amended): if the directory is read-only for the helper-file
writes but the database is writable AND the `db_visualizer` subdirectory
already exists (so the `exist_ok` mkdir does not raise), the run
completes successfully, prints a warning for each helper file it could
not write, and reaches the final success line. -/
theorem helper_readonly_amended (env : Env) (h1 : env.schemaError = none)
    (h2 : env.fs.visualizerMkdirError = none) :
    ∃ r, main_run env = Except.ok r ∧
      (∀ e, env.fs.connTxtError = some e →
        OutLine.connInfoWarning e ∈ r.output) ∧
      (∀ e, env.fs.envFileError = some e →
        OutLine.envVarsWarning e ∈ r.output) ∧
      OutLine.completedSuccessfully ∈ r.output := by
  refine ⟨mainResultOf env, main_run_ok env h1 h2, ?_, ?_, ?_⟩
  · intro e he
    simp [mainResultOf, helperWarns, he]
  · intro e he
    simp [mainResultOf, helperWarns, he]
  · simp [mainResultOf]

/-- The read-only-directory scenario when `db_visualizer` already
exists: both helper-file writes fail, the mkdir succeeds. -/
def readOnlySubdirExistsEnv : Env :=
  { readOnlyDirEnv with
    fs := { connTxtError := some "Permission denied",
            visualizerMkdirError := none,
            envFileError := some "Permission denied" } }

/-- Witness for the amended C2 at the concrete read-only scenario. -/
theorem helper_readonly_amended_witness :
    ∃ r, main_run readOnlySubdirExistsEnv = Except.ok r ∧
      (∀ e, readOnlySubdirExistsEnv.fs.connTxtError = some e →
        OutLine.connInfoWarning e ∈ r.output) ∧
      (∀ e, readOnlySubdirExistsEnv.fs.envFileError = some e →
        OutLine.envVarsWarning e ∈ r.output) ∧
      OutLine.completedSuccessfully ∈ r.output :=
  helper_readonly_amended readOnlySubdirExistsEnv rfl rfl

theorem cli_not_mem_output (env : Env)
    (hd : env.cliDetectError.isSome = true) :
    ∀ p, OutLine.cliHeader ∉ (mainResultOf env).output ∧
      OutLine.cliHint p ∉ (mainResultOf env).output := by
  intro p
  obtain ⟨sd, cw, de, pe, idb, se, n, ⟨ce, me, ee⟩, ca, cde⟩ := env
  cases cde with
  | none => simp at hd
  | some v =>
    unfold mainResultOf preOutput helperWarns reportLines cliLines
    refine ⟨?_, ?_⟩ <;>
      cases de <;> cases pe <;> cases ce <;> cases ee <;> simp

/-- C4: the two-tier error policy: an error raised while applying the
schema propagates uncaught and aborts the run; an error raised while
opening or writing either helper file is caught, printed as a warning,
and the run continues to completion; an error raised during the optional
sqlite3 CLI detection is caught and silently ignored (the run succeeds
and no CLI line is printed). -/
theorem error_policy (env : Env) :
    (∀ e, env.schemaError = some e → main_run env = Except.error e) ∧
    (env.schemaError = none → env.fs.visualizerMkdirError = none →
      ∃ r, main_run env = Except.ok r ∧
        (∀ e, env.fs.connTxtError = some e →
          OutLine.connInfoWarning e ∈ r.output) ∧
        (∀ e, env.fs.envFileError = some e →
          OutLine.envVarsWarning e ∈ r.output) ∧
        (env.cliDetectError.isSome = true → ∀ p,
          OutLine.cliHeader ∉ r.output ∧ OutLine.cliHint p ∉ r.output) ∧
        OutLine.completedSuccessfully ∈ r.output) := by
  refine ⟨fun e he => main_run_schema_error env e he, fun h1 h2 => ?_⟩
  refine ⟨mainResultOf env, main_run_ok env h1 h2, ?_, ?_, ?_, ?_⟩
  · intro e he
    simp [mainResultOf, helperWarns, he]
  · intro e he
    simp [mainResultOf, helperWarns, he]
  · exact fun hd => cli_not_mem_output env hd
  · simp [mainResultOf]

/-- An environment whose schema application raises. -/
def schemaFailEnv : Env :=
  { benignEnv with schemaError := some "disk I/O error" }

/-- Witness for C4: the schema error propagates at a concrete input. -/
theorem error_policy_witness :
    main_run schemaFailEnv = Except.error "disk I/O error" :=
  (error_policy schemaFailEnv).1 "disk I/O error" rfl

/-- C8: the table count printed in the final report equals the number of
non-internal tables present in the database at that moment, and on a run
against a fresh (previously absent) database this count is 3. -/
theorem table_count_report (env : Env) (h1 : env.schemaError = none)
    (h2 : env.fs.visualizerMkdirError = none) :
    ∃ r, main_run env = Except.ok r ∧
      OutLine.tablesLine r.tableCount ∈ r.output ∧
      r.tableCount = (tableNames r.finalDb).length ∧
      (env.dbExists = false → r.tableCount = 3) := by
  refine ⟨mainResultOf env, main_run_ok env h1 h2, ?_, rfl, ?_⟩
  · simp [mainResultOf, reportLines]
  · intro hf
    show (tableNames (finalDbOf env)).length = 3
    unfold finalDbOf
    rw [hf, tableNames_create_schema]
    rfl

/-- Witness for C8 at the benign fresh environment. -/
theorem table_count_report_witness :
    ∃ r, main_run benignEnv = Except.ok r ∧
      OutLine.tablesLine r.tableCount ∈ r.output ∧
      r.tableCount = (tableNames r.finalDb).length ∧
      (benignEnv.dbExists = false → r.tableCount = 3) :=
  table_count_report benignEnv rfl rfl

theorem fresh_run_no_precheck_output (env : Env)
    (hf : env.dbExists = false) :
    OutLine.accessible ∉ (mainResultOf env).output ∧
    (∀ e, OutLine.corruptionWarning e ∉ (mainResultOf env).output) ∧
    (∀ p, OutLine.alreadyExists p ∉ (mainResultOf env).output) := by
  obtain ⟨sd, cw, de, pe, idb, se, n, ⟨ce, me, ee⟩, ca, cde⟩ := env
  cases de with
  | true => simp at hf
  | false =>
    unfold mainResultOf preOutput helperWarns reportLines cliLines
    refine ⟨?_, ?_, ?_⟩ <;>
      cases pe <;> cases ce <;> cases ee <;> cases cde <;> cases ca <;> simp

theorem precheck_fail_no_accessible (env : Env) (e : String)
    (hp : env.precheckError = some e) :
    OutLine.accessible ∉ (mainResultOf env).output := by
  obtain ⟨sd, cw, de, pe, idb, se, n, ⟨ce, me, ee⟩, ca, cde⟩ := env
  cases pe with
  | none => simp at hp
  | some e2 =>
    unfold mainResultOf preOutput helperWarns reportLines cliLines
    cases de <;> cases ce <;> cases ee <;> cases cde <;> cases ca <;> simp

/-- C9: when the database file already exists the script runs the
accessibility pre-check before applying the schema (its lines come ahead
of everything else in the output): on success it prints the
accessibility line; if the pre-check raises, the error is caught, only a
corruption warning is printed (no accessibility line), and the run still
proceeds to apply the schema.  When the file does not exist, no
pre-check output appears at all. -/
theorem precheck_behavior (env : Env) (h1 : env.schemaError = none)
    (h2 : env.fs.visualizerMkdirError = none) :
    ∃ r, main_run env = Except.ok r ∧
      (∃ rest, r.output =
        preOutput env (container_db_path env.scriptDir env.cwd) ++ rest) ∧
      (env.dbExists = true → env.precheckError = none →
        OutLine.accessible ∈ r.output) ∧
      (env.dbExists = true → ∀ e, env.precheckError = some e →
        OutLine.corruptionWarning e ∈ r.output ∧
        OutLine.accessible ∉ r.output ∧
        r.finalDb = create_schema env.now env.initDb) ∧
      (env.dbExists = false →
        OutLine.accessible ∉ r.output ∧
        (∀ e, OutLine.corruptionWarning e ∉ r.output) ∧
        (∀ p, OutLine.alreadyExists p ∉ r.output)) := by
  refine ⟨mainResultOf env, main_run_ok env h1 h2, ?_, ?_, ?_, ?_⟩
  · refine ⟨helperWarns env.fs ++
      reportLines (container_db_path env.scriptDir env.cwd)
        (tableNames (finalDbOf env)).length
        (requestLogRows (finalDbOf env)).length ++
      cliLines env (container_db_path env.scriptDir env.cwd) ++
      [OutLine.completedSuccessfully], ?_⟩
    simp [mainResultOf, List.append_assoc]
  · intro hd hp
    simp [mainResultOf, preOutput, hd, hp]
  · intro hd e hp
    refine ⟨by simp [mainResultOf, preOutput, hd, hp],
      precheck_fail_no_accessible env e hp, ?_⟩
    show finalDbOf env = create_schema env.now env.initDb
    simp [finalDbOf, hd]
  · intro hf
    exact fresh_run_no_precheck_output env hf

/-- An existing but corrupted database file: the pre-check raises. -/
def corruptedDbEnv : Env :=
  { benignEnv with
    dbExists := true,
    precheckError := some "database disk image is malformed" }

/-- Witness for C9 at the concrete corrupted-file environment. -/
theorem precheck_behavior_witness :
    ∃ r, main_run corruptedDbEnv = Except.ok r ∧
      (∃ rest, r.output = preOutput corruptedDbEnv
        (container_db_path corruptedDbEnv.scriptDir corruptedDbEnv.cwd) ++
        rest) ∧
      (corruptedDbEnv.dbExists = true →
        corruptedDbEnv.precheckError = none →
        OutLine.accessible ∈ r.output) ∧
      (corruptedDbEnv.dbExists = true → ∀ e,
        corruptedDbEnv.precheckError = some e →
        OutLine.corruptionWarning e ∈ r.output ∧
        OutLine.accessible ∉ r.output ∧
        r.finalDb = create_schema corruptedDbEnv.now corruptedDbEnv.initDb) ∧
      (corruptedDbEnv.dbExists = false →
        OutLine.accessible ∉ r.output ∧
        (∀ e, OutLine.corruptionWarning e ∉ r.output) ∧
        (∀ p, OutLine.alreadyExists p ∉ r.output)) :=
  precheck_behavior corruptedDbEnv rfl rfl

/-- A concrete `app_info` table holding an old row for key `version`. -/
def oldAppInfo : AppInfo :=
  { rows := [seedRow 1 "version" "0.0.9" 1700000000], nextId := 2 }

/-- Witness for C10 at a concrete table: the old `version` row (id 1,
old timestamp) is wholly replaced by a new row with a fresh id and the
new run's timestamp. -/
theorem upsert_replaces_row_witness :
    ((upsertAppInfo oldAppInfo 1760227200 "version" "0.1.0").rows.filter
        (fun r => r.key = "version")) =
      [seedRow oldAppInfo.nextId "version" "0.1.0" 1760227200] ∧
    seedRow 1 "version" "0.0.9" 1700000000 ∉
      (upsertAppInfo oldAppInfo 1760227200 "version" "0.1.0").rows := by
  refine ⟨(upsert_replaces_row oldAppInfo 1760227200 "version" "0.1.0").1, ?_⟩
  exact (upsert_replaces_row oldAppInfo 1760227200 "version" "0.1.0").2.1
    (seedRow 1 "version" "0.0.9" 1700000000) (by simp [oldAppInfo])
    (by rfl) (by decide)
